import Mathlib

/-!
Shallow embedding of `src/python/txtai/models/models.py` (class `Models`),
a utility layer that resolves compute devices, dispatches model loading by
artifact format and task name, and normalizes tokenizer/config length
metadata.

Modelling conventions:
* Python attribute bags become structures with `Option` fields; a field
  equal to `none` models the attribute being absent (`hasattr` false).
  Reading an absent attribute raises `AttributeError` in Python; a function
  that can do so returns `Option` and yields `none` exactly on that raise.
* `torch` backend availability (`torch.cuda.is_available()`,
  `torch.backends.mps.is_available()`, `hasattr(torch, "xpu")`,
  `torch.xpu.is_available()`) is an explicit environment record `Env`.
* The filesystem probe `os.path.isfile` is an explicit parameter
  `fs : String → Bool`.
* External constructors (`OnnxModel`, the `Auto*` `from_pretrained`
  loaders) are uninterpreted: `load` returns a `LoadResult` recording which
  constructor was invoked with which arguments, or `passthrough a` when the
  Python code returns the artifact `a` itself unchanged.
-/

namespace TxtaiModels

/-- Python `int(1e30)`: the sentinel "effectively unbounded" value that
Hugging Face tokenizers use for an unset `model_max_length`.  `1e30` is a
float and `10^30` is not exactly representable in a 64-bit float, so
`int(1e30)` is the nearest double, not `10^30`. -/
def sentinel : Int := 1000000000000000019884624838656

/-- A transformers tokenizer, reduced to the single attribute this module
touches.  `model_max_length = none` models the attribute being absent. -/
structure Tokenizer where
  model_max_length : Option Int
deriving DecidableEq, Repr

/-- A transformers config, reduced to the attributes this module touches.
`diff` is the key set of `config.to_diff_dict()` (the non-defaulted
fields).  `max_position_embeddings = none` / `max_length = none` model the
attribute being absent. -/
structure Cfg where
  max_position_embeddings : Option Int
  max_length : Option Int
  diff : List String
deriving DecidableEq, Repr

/-- The `config` argument of `checklength`/`maxlength`: either a config
itself (no `config` attribute), or an object such as a model that wraps an
inner config in a `config` attribute. -/
inductive ConfigArg where
  | plain (c : Cfg)
  | wrapped (c : Cfg)
deriving DecidableEq, Repr

/-- `if hasattr(config, "config"): config = config.config` -/
def unwrap : ConfigArg → Cfg
  | .plain c => c
  | .wrapped c => c

/-- `Models.checklength(config, tokenizer)`.  The Python code mutates
`tokenizer.model_max_length` in place; here the updated tokenizer is
returned.  The `tokenizer` parameter is `Option Tokenizer` so that Python
`None` (falsy, so the `tokenizer and ...` conjunction blocks all attribute
access) is representable.  Every attribute access in the source is gated:
`hasattr(config, "max_position_embeddings")`, truthiness of `tokenizer`,
and `hasattr(tokenizer, "model_max_length")`, so this function is total. -/
def checklength (config : ConfigArg) (tokenizer : Option Tokenizer) : Option Tokenizer :=
  let c := unwrap config
  match tokenizer with
  | none => none
  | some t =>
    match c.max_position_embeddings, t.model_max_length with
    | some mpe, some mml =>
        if mml = sentinel then some { t with model_max_length := some mpe } else some t
    | _, _ => some t

/-- `hasattr(tokenizer, "model_max_length")`; false when the tokenizer is
Python `None`. -/
def hasMML : Option Tokenizer → Bool
  | some t => t.model_max_length.isSome
  | none => false

/-- `tokenizer.model_max_length` as an `Option` read. -/
def getMML : Option Tokenizer → Option Int
  | some t => t.model_max_length
  | none => none

/-- `Models.maxlength(config, tokenizer)`.  Mirrors
`config.max_length if "max_length" in keys or not hasattr(tokenizer,
"model_max_length") else tokenizer.model_max_length` where
`keys = config.to_diff_dict()`.  The `config.max_length` read in the first
branch is NOT gated by `hasattr` in the source: when that attribute is
absent the Python call raises `AttributeError`, modelled here by the
result `none` (the `c.max_length` field itself).  The `else` branch only
runs when `hasattr(tokenizer, "model_max_length")` holds, so it always
yields `some`. -/
def maxlength (config : ConfigArg) (tokenizer : Option Tokenizer) : Option Int :=
  let c := unwrap config
  if "max_length" ∈ c.diff ∨ hasMML tokenizer = false then c.max_length
  else getMML tokenizer

/-- Accelerator backend availability, the ambient state probed by
`torch`.  `xpuPresent` is `hasattr(torch, "xpu")`; `xpuAvail` is
`torch.xpu.is_available()`. -/
structure Env where
  cuda : Bool
  mps : Bool
  xpuPresent : Bool
  xpuAvail : Bool
deriving DecidableEq, Repr

/-- `Models.finddevice()`: first name in `["xpu"]` whose module attribute
exists and reports available, else Python `None`. -/
def finddevice (env : Env) : Option String :=
  if env.xpuPresent && env.xpuAvail then some "xpu" else none

/-- `Models.hasaccelerator()`: cuda, mps, or `bool(finddevice())`. -/
def hasaccelerator (env : Env) : Bool :=
  env.cuda || env.mps || (finddevice env).isSome

/-- An opaque `torch.device` instance. -/
structure TorchDevice where
  ref : String
deriving DecidableEq, Repr

/-- The `gpu` argument of `Models.deviceid`: a `torch.device` instance,
Python `None`, a boolean, or an integer id. -/
inductive Gpu where
  | dev (d : TorchDevice)
  | pynone
  | bool (b : Bool)
  | int (n : Int)
deriving DecidableEq, Repr

/-- The result of `Models.deviceid`: the `torch.device` passed through, or
an integer device id. -/
inductive DeviceId where
  | dev (d : TorchDevice)
  | id (n : Int)
deriving DecidableEq, Repr

/-- `Models.deviceid(gpu)`: a `torch.device` is returned unchanged; `None`
or no accelerator gives `-1`; `True` gives `0`, `False` gives `-1`;
an int is returned as is. -/
def deviceid (env : Env) (gpu : Gpu) : DeviceId :=
  match gpu with
  | .dev d => .dev d
  | .pynone => .id (-1)
  | .bool b =>
      if hasaccelerator env = false then .id (-1)
      else if b then .id 0 else .id (-1)
  | .int n =>
      if hasaccelerator env = false then .id (-1) else .id n

/-- The `deviceid` argument of `Models.reference`: a string or an integer
device id. -/
inductive DeviceRef where
  | str (s : String)
  | int (n : Int)
deriving DecidableEq, Repr

/-- `Models.reference(deviceid)`: a string passes through; a negative id
gives `"cpu"`; otherwise `"cuda:<id>"` if cuda is available, else `"mps"`
if mps is available, else `finddevice()` — which is Python `None` when no
alternative backend exists, modelled by `none`. -/
def reference (env : Env) (d : DeviceRef) : Option String :=
  match d with
  | .str s => some s
  | .int n =>
      if n < 0 then some "cpu"
      else if env.cuda then some ("cuda:" ++ toString n)
      else if env.mps then some "mps"
      else finddevice env

/-- An opaque already-instantiated model object (non-string, non-bytes). -/
structure ModelObj where
  tag : Nat
deriving DecidableEq, Repr

/-- The `path` argument of `Models.load`: raw bytes, a string (file path
or hub checkpoint id), or an already-built object. -/
inductive Artifact where
  | bytes (b : List Nat)
  | str (s : String)
  | obj (o : ModelObj)
deriving DecidableEq, Repr

/-- The five `Auto*` `from_pretrained` constructors of the task table;
`text-classification` and `zero-shot-classification` share
`AutoModelForSequenceClassification`. -/
inductive AutoLoader where
  | autoModel
  | autoQA
  | autoSeq2Seq
  | autoSeqCls
deriving DecidableEq, Repr

/-- The `models` task-dispatch dict built inside `Models.load`. -/
def models : List (String × AutoLoader) :=
  [("default", .autoModel),
   ("question-answering", .autoQA),
   ("summarization", .autoSeq2Seq),
   ("text-classification", .autoSeqCls),
   ("zero-shot-classification", .autoSeqCls)]

/-- What `Models.load` returns: `OnnxModel(path, config)` applied to its
arguments, a `from_pretrained` loader applied to a checkpoint id, or the
artifact itself unchanged (`passthrough a` records that the Python code
returns `a`). -/
inductive LoadResult where
  | onnxModel (path : Artifact) (config : Option String)
  | fromPretrained (loader : AutoLoader) (path : String)
  | passthrough (a : Artifact)
deriving DecidableEq, Repr

/-- `Models.load(path, config, task)`.  `fs` models `os.path.isfile`.
Order of checks mirrors the source: bytes or an existing file →
`OnnxModel`; non-string → returned unchanged; else task dispatch, with
unknown tasks returning the path unchanged. -/
def load (fs : String → Bool) (path : Artifact) (config : Option String)
    (task : String) : LoadResult :=
  match path with
  | .bytes b => .onnxModel (.bytes b) config
  | .str s =>
      if fs s then .onnxModel (.str s) config
      else
        match models.lookup task with
        | some l => .fromPretrained l s
        | none => .passthrough (.str s)
  | .obj o => .passthrough (.obj o)

/-- C1: a raw byte buffer, or a string naming an existing file, always
takes the `OnnxModel` (serialized-graph) branch of `load` with the given
config, for every task value — the task table is never consulted. -/
theorem load_serialized_branch (fs : String → Bool) (config : Option String)
    (task : String) :
    (∀ b : List Nat, load fs (.bytes b) config task = .onnxModel (.bytes b) config) ∧
    (∀ s : String, fs s = true → load fs (.str s) config task = .onnxModel (.str s) config) := by
  constructor
  · intro b; rfl
  · intro s hs; simp [load, hs]

/-- Witness for C1: a concrete existing file `"model.onnx"` with a known
task name still takes the serialized-graph branch. -/
theorem load_serialized_branch_witness :
    load (fun s => s == "model.onnx") (.str "model.onnx") (some "cfg") "summarization"
      = .onnxModel (.str "model.onnx") (some "cfg") :=
  (load_serialized_branch (fun s => s == "model.onnx") (some "cfg") "summarization").2
    "model.onnx" (by decide)

/-- C10: `deviceid` on an already-resolved `torch.device` handle returns
the handle unchanged, regardless of accelerator availability. -/
theorem deviceid_handle_identity (env : Env) (d : TorchDevice) :
    deviceid env (.dev d) = .dev d := rfl

/-- C8: `reference` passes a string id through unchanged, and maps every
negative integer id to `"cpu"`, independent of backend availability. -/
theorem reference_cpu_and_str (env : Env) :
    (∀ s : String, reference env (.str s) = some s) ∧
    (∀ n : Int, n < 0 → reference env (.int n) = some "cpu") := by
  constructor
  · intro s; rfl
  · intro n hn; simp [reference, hn]

/-- Witness for C8: with only cuda available, `reference (-1)` is
`"cpu"`. -/
theorem reference_cpu_and_str_witness :
    reference ⟨true, false, false, false⟩ (.int (-1)) = some "cpu" :=
  (reference_cpu_and_str ⟨true, false, false, false⟩).2 (-1) (by decide)

/-- C2: when the (possibly once-unwrapped) config declares a finite
`max_position_embeddings` bound (present and different from the sentinel
"effectively unbounded" value) and the tokenizer has a `model_max_length`
attribute, `checklength` never leaves that attribute at the sentinel; in
particular `max_position_embeddings = 512` with a sentinel tokenizer ends
with `model_max_length = 512`. -/
theorem checklength_restores_bound :
    (∀ (c : ConfigArg) (t : Tokenizer) (v : Int),
      (unwrap c).max_position_embeddings = some v → v ≠ sentinel →
      (t.model_max_length).isSome = true →
      getMML (checklength c (some t)) ≠ some sentinel) ∧
    checklength (.plain ⟨some 512, none, []⟩) (some ⟨some sentinel⟩) = some ⟨some 512⟩ := by
  constructor
  · intro c t v hv hvfin hsome
    obtain ⟨m, hm⟩ := Option.isSome_iff_exists.mp hsome
    by_cases hms : m = sentinel
    · simp [checklength, hv, hm, hms, getMML]
      omega
    · simp [checklength, hv, hm, hms, getMML]
  · decide

/-- Witness for C2: concrete config with bound 512 and a sentinel
tokenizer — the result is not left at the sentinel. -/
theorem checklength_restores_bound_witness :
    getMML (checklength (.plain ⟨some 512, none, []⟩) (some ⟨some sentinel⟩)) ≠ some sentinel :=
  checklength_restores_bound.1 (.plain ⟨some 512, none, []⟩) ⟨some sentinel⟩ 512
    rfl (by decide) rfl

/-- C3: whenever `"max_length"` appears in the config's diff against
default values, `maxlength` returns `config.max_length`, whatever the
tokenizer holds; in particular a diff containing `max_length: 128` yields
128 against a tokenizer with `model_max_length = 512`. -/
theorem maxlength_prefers_config :
    (∀ (c : ConfigArg) (t : Option Tokenizer),
      "max_length" ∈ (unwrap c).diff → maxlength c t = (unwrap c).max_length) ∧
    maxlength (.plain ⟨none, some 128, ["max_length"]⟩) (some ⟨some 512⟩) = some 128 := by
  constructor
  · intro c t hmem
    simp [maxlength, hmem]
  · decide

/-- Witness for C3: concrete config with `max_length: 128` in its diff and
a tokenizer holding 999 — `maxlength` still returns 128. -/
theorem maxlength_prefers_config_witness :
    maxlength (.plain ⟨none, some 128, ["max_length"]⟩) (some ⟨some 999⟩) = some 128 :=
  maxlength_prefers_config.1 (.plain ⟨none, some 128, ["max_length"]⟩)
    (some ⟨some 999⟩) (by decide)

/-- Counterexample to C4 as stated: with a config lacking `max_length`
(and an empty diff) and a tokenizer lacking `model_max_length`, the
`config.max_length` read in `maxlength` is not gated by `hasattr`, so the
call raises `AttributeError` (result `none`) instead of never raising. -/
theorem maxlength_ungated_access_cex :
    maxlength (.plain ⟨none, none, []⟩) none = none := rfl

/-- C4 amended: `checklength` is fully presence-gated — absence of
`max_position_embeddings` or of `model_max_length` short-circuits to no
change — and `maxlength` is gated on the tokenizer side: when the
tokenizer has `model_max_length` and `max_length` was not explicitly set,
it returns the tokenizer's value and never raises.  (Only the remaining
case — tokenizer without `model_max_length` and config without
`max_length` — reaches the ungated `config.max_length` read.) -/
theorem checklength_maxlength_gated :
    (∀ (c : ConfigArg) (t : Option Tokenizer),
      (unwrap c).max_position_embeddings = none → checklength c t = t) ∧
    (∀ (c : ConfigArg) (t : Option Tokenizer),
      hasMML t = false → checklength c t = t) ∧
    (∀ (c : ConfigArg) (t : Option Tokenizer),
      hasMML t = true → "max_length" ∉ (unwrap c).diff →
      maxlength c t = getMML t ∧ (maxlength c t).isSome = true) := by
  refine ⟨?_, ?_, ?_⟩
  · intro c t hmpe
    cases t with
    | none => rfl
    | some tok =>
      rcases h2 : tok.model_max_length with _ | mml <;> simp [checklength, hmpe, h2]
  · intro c t hmml
    cases t with
    | none => rfl
    | some tok =>
      rcases h2 : tok.model_max_length with _ | mml
      · rcases h1 : (unwrap c).max_position_embeddings with _ | mpe <;>
          simp [checklength, h1, h2]
      · simp [hasMML, h2] at hmml
  · intro c t hmml hmem
    have hres : maxlength c t = getMML t := by
      simp [maxlength, hmem, hmml]
    refine ⟨hres, ?_⟩
    rw [hres]
    cases t with
    | none => simp [hasMML] at hmml
    | some tok => simpa [hasMML, getMML] using hmml

/-- Witness for C4 (amended): a config with no optional fields set and a
tokenizer carrying 512 — `maxlength` returns the tokenizer's value. -/
theorem checklength_maxlength_gated_witness :
    maxlength (.plain ⟨none, none, []⟩) (some ⟨some 512⟩) = getMML (some ⟨some 512⟩) :=
  (checklength_maxlength_gated.2.2 (.plain ⟨none, none, []⟩) (some ⟨some 512⟩)
    rfl (by decide)).1

/-- Counterexample to C5 as stated: with no accelerator backend available
(cuda, mps and xpu all unavailable) and requested id `0`, `reference`
returns Python `None` (the `finddevice()` fallthrough) — it silently
yields an undefined reference instead of signalling an error. -/
theorem reference_fallthrough_cex :
    reference ⟨false, false, false, false⟩ (.int 0) = none := rfl

/-- C5 amended: for every non-string id `n ≥ 0`, when no accelerator
backend is available `reference` deterministically returns Python `None`
(the undefined-reference fallthrough); it never signals an error
condition. -/
theorem reference_no_accelerator (env : Env) (n : Int)
    (hn : 0 ≤ n) (hacc : hasaccelerator env = false) :
    reference env (.int n) = none := by
  obtain ⟨cuda, mps, xp, xa⟩ := env
  cases cuda <;> cases mps <;> cases xp <;> cases xa <;>
    first
    | exact absurd hacc (by decide)
    | simp [reference, finddevice, not_lt.mpr hn]

/-- Witness for C5 (amended): xpu module present but unavailable, id 2 —
`reference` returns `None`. -/
theorem reference_no_accelerator_witness :
    reference ⟨false, false, true, false⟩ (.int 2) = none :=
  reference_no_accelerator ⟨false, false, true, false⟩ 2 (by decide) (by decide)

/-- C6: with an accelerator available, `deviceid true = 0` and
`deviceid false = -1`; with none available, both booleans give `-1`. -/
theorem deviceid_bool (env : Env) :
    (hasaccelerator env = true →
      deviceid env (.bool true) = .id 0 ∧ deviceid env (.bool false) = .id (-1)) ∧
    (hasaccelerator env = false →
      deviceid env (.bool true) = .id (-1) ∧ deviceid env (.bool false) = .id (-1)) := by
  constructor
  · intro h; simp [deviceid, h]
  · intro h; simp [deviceid, h]

/-- Witness for C6: with cuda available, `deviceid true = 0`. -/
theorem deviceid_bool_witness :
    deviceid ⟨true, false, false, false⟩ (.bool true) = .id 0 :=
  ((deviceid_bool ⟨true, false, false, false⟩).1 (by decide)).1

/-- C7: `load` returns its artifact unchanged in both pass-through cases:
any non-string, non-bytes artifact, and any checkpoint-id string (not an
existing file) whose task is not in the five-entry task table. -/
theorem load_passthrough (fs : String → Bool) (config : Option String)
    (task : String) :
    (∀ o : ModelObj, load fs (.obj o) config task = .passthrough (.obj o)) ∧
    (∀ s : String, fs s = false → models.lookup task = none →
      load fs (.str s) config task = .passthrough (.str s)) := by
  constructor
  · intro o; rfl
  · intro s hfs htask; simp [load, hfs, htask]

/-- Witness for C7: a hub checkpoint id with an unknown task name is
returned unchanged. -/
theorem load_passthrough_witness :
    load (fun _ => false) (.str "bert-base-uncased") none "unknown-task"
      = .passthrough (.str "bert-base-uncased") :=
  (load_passthrough (fun _ => false) none "unknown-task").2
    "bert-base-uncased" rfl (by decide)

/-- C9: `checklength` is idempotent — running it a second time on the
tokenizer produced by the first run changes nothing (after a copy the
sentinel condition only still holds if the copied bound is itself the
sentinel, in which case the second copy is the identity). -/
theorem checklength_idempotent (c : ConfigArg) (t : Option Tokenizer) :
    checklength c (checklength c t) = checklength c t := by
  cases t with
  | none => rfl
  | some tok =>
    rcases h1 : (unwrap c).max_position_embeddings with _ | mpe
    · simp [checklength, h1]
    · rcases h2 : tok.model_max_length with _ | mml
      · simp [checklength, h1, h2]
      · by_cases hs : mml = sentinel
        · by_cases hs2 : mpe = sentinel
          · simp [checklength, h1, h2, hs, hs2]
          · simp [checklength, h1, h2, hs, hs2]
        · simp [checklength, h1, h2, hs]

end TxtaiModels
